import Mathlib

/-!
Market Sentiment Analyzer: verification of the aggregation/normalization pipeline

Shallow embedding of `src/TT.py` (single-file Streamlit dashboard).
Dates are modelled as integers, decimal values (sentiment polarities, index
closes) as rationals.  Pandas `NaN` arising from `0/0` in the min–max
normalization is modelled as `Option.none`.  Data frames are modelled as
lists of rows; grouped aggregates are modelled as functions on group keys.
-/

namespace MarketSentiment

/-- Sentiment category, the derived enumeration computed by `categorize`
(TT.py lines 153–159). -/
inductive Category where
  | positive
  | negative
  | neutral
deriving DecidableEq, Repr

/-- `categorize` (TT.py lines 153–159):
`if p > 0.1: "Positive" elif p < -0.1: "Negative" else: "Neutral"`. -/
def categorize (p : ℚ) : Category :=
  if p > 1/10 then Category.positive
  else if p < -(1/10) then Category.negative
  else Category.neutral

/-- One row of the `stock_news` table as produced by `fetch_real_news`
(TT.py line 64): columns `Ticker`, `Headline`, `Sentiment`.  The sentiment
is optional because the store may hold null sentiment values, which the
charting code drops via `dropna` (TT.py lines 129, 162). -/
structure HeadlineRow where
  ticker : String
  headline : String
  sentiment : Option ℚ
deriving DecidableEq, Repr

/-- The non-null sentiment values of the rows for one group key, i.e. the
values pandas' `groupby("Ticker")["Sentiment"].mean()` averages over
(TT.py line 140): rows with this ticker, nulls skipped. -/
def groupSentiments (rows : List HeadlineRow) (t : String) : List ℚ :=
  (rows.filter (fun r => r.ticker = t)).filterMap (fun r => r.sentiment)

/-- `avg_sentiment` (TT.py line 140):
`stock_news.groupby("Ticker")["Sentiment"].mean()`.
A ticker with no rows at all is not a group, hence absent from the result
(`none`); a group whose sentiments are all null gets pandas `NaN`, also
modelled as `none`; otherwise the arithmetic mean of the non-null values. -/
def avg_sentiment (rows : List HeadlineRow) (t : String) : Option ℚ :=
  if (rows.filter (fun r => r.ticker = t)) = [] then none
  else
    let vals := groupSentiments rows t
    if vals = [] then none
    else some (vals.sum / vals.length)

/-- The group keys of `avg_sentiment`: the tickers occurring in the table. -/
def avgSentimentKeys (rows : List HeadlineRow) : List String :=
  (rows.map (fun r => r.ticker)).dedup

/-- `pie_data` (TT.py lines 161–165): drop rows with null sentiment
(`dropna(subset=["Sentiment"])`), apply `categorize`, and count occurrences
of each category (`value_counts`). -/
def pie_data (rows : List HeadlineRow) (c : Category) : ℕ :=
  ((rows.filterMap (fun r => r.sentiment)).filter (fun s => categorize s = c)).length

/-- The data frame returned by `fetch_real_news` together with the warnings
it prints: `cols` is the column list of the frame, `rows` its rows. -/
structure NewsTable where
  cols : List String
  rows : List HeadlineRow
  warnings : List String
deriving DecidableEq, Repr

/-- `fetch_real_news` (TT.py lines 54–67).  The provider response is either
an ordered list of article titles or an error.  Success branch: one row per
title, sentiment the polarity of the title, columns
`Ticker, Headline, Sentiment` (line 64).  Error branch: the exception is
caught, a warning is printed, and an empty frame with the same three columns
is returned (lines 65–67).  The external polarity classifier
(`TextBlob(...).sentiment.polarity`) is a parameter. -/
def fetch_real_news (polarity : String → ℚ) (ticker : String)
    (resp : Except String (List String)) : NewsTable :=
  match resp with
  | Except.ok titles =>
      { cols := ["Ticker", "Headline", "Sentiment"]
        rows := titles.map (fun h => ⟨ticker, h, some (polarity h)⟩)
        warnings := [] }
  | Except.error e =>
      { cols := ["Ticker", "Headline", "Sentiment"]
        rows := []
        warnings := ["Failed to fetch news for " ++ ticker ++ ": " ++ e] }

/-- Modelled from the spec: the external news provider
(`newsapi.get_everything`, an external collaborator, not repository code);
spec §6: `search(query, language, sortOrder, pageSize) -> ordered list of
articles`, honouring the requested page size.  Given the articles available
for the query it returns at most `pageSize` of them. -/
def newsProviderSearch (available : List String) (pageSize : ℕ) : List String :=
  available.take pageSize

/-- `fetch_real_news` composed with the provider call it makes (TT.py
lines 56–61): `get_everything(q=..., language='en', sort_by='relevancy',
page_size=5)`. -/
def fetchRealNewsFromProvider (polarity : String → ℚ) (ticker : String)
    (available : List String) : NewsTable :=
  fetch_real_news polarity ticker (Except.ok (newsProviderSearch available 5))

/-- The sidebar configuration (TT.py lines 21–23): selected stocks and the
start/end dates.  Dates are modelled as integers (day numbers). -/
structure Config where
  stocks : List String
  startDate : ℤ
  endDate : ℤ
deriving DecidableEq, Repr

/-- A blocking call made to an external provider. -/
inductive ProviderCall where
  | price (ticker : String) (startDate endDate : ℤ)
  | news (ticker : String)
deriving DecidableEq, Repr

/-- The ingestion loop of the main flow (TT.py lines 96–105): for each
selected stock, `fetch_stock_data` downloads prices for the configured
range (line 43 passes `START_DATE`/`END_DATE` straight to the provider) and
`fetch_real_news` queries the news provider.  The script contains no
validation of the date range anywhere before these calls. -/
def mainFlowProviderCalls (cfg : Config) : List ProviderCall :=
  cfg.stocks.flatMap
    (fun s => [ProviderCall.price s cfg.startDate cfg.endDate, ProviderCall.news s])

/-! ## Comparative normalizer (TT.py lines 70–77, 183–187) -/

/-- A named series: an association list from date to decimal value (one
column of `combined_df`). -/
abbrev Series := List (ℤ × ℚ)

/-- All dates mentioned by any series of the table. -/
def allDates (tbl : List Series) : List ℤ :=
  ((tbl.map (fun s => s.map Prod.fst)).flatten).dedup

/-- The dates surviving the inner join: dates at which every series of the
table has a value.  This is the effect of `pd.merge(..., how='inner')`
(TT.py line 184) together with the per-index `concat` + `dropna` of
`fetch_index_data` (lines 75–76). -/
def survivingDates (tbl : List Series) : List ℤ :=
  (allDates tbl).filter (fun d => tbl.all (fun s => (s.lookup d).isSome))

/-- pandas' column reduction `.min()`: `none` on an empty column, otherwise
the least value (a fold of the binary minimum over the column). -/
def colMin (l : List ℚ) : Option ℚ :=
  l.min?

/-- pandas' column reduction `.max()`: `none` on an empty column, otherwise
the greatest value (a fold of the binary maximum over the column). -/
def colMax (l : List ℚ) : Option ℚ :=
  l.max?

/-- The column of values of series `s` over the surviving dates of the
joined table. -/
def colVals (tbl : List Series) (s : Series) : List ℚ :=
  (survivingDates tbl).filterMap (fun d => s.lookup d)

/-- The scalar min–max scaling of TT.py line 187,
`(combined_df[col] - min) / (max - min)`, in float arithmetic: when
`max = min` the expression is `0/0 = NaN`, modelled as `none`. -/
def scaleValue (v m M : ℚ) : Option ℚ :=
  if M - m = 0 then none else some ((v - m) / (M - m))

/-- `normalized_df` (TT.py lines 185–187): for each column of the joined
table, scale every value by that column's min and max over the surviving
dates.  For each series of the table this gives the list of
(date, scaled value) pairs over the surviving dates; a constant column
yields `none` (NaN) at every date. -/
def normalized_df (tbl : List Series) : List (List (ℤ × Option ℚ)) :=
  tbl.map (fun s =>
    let m := (colMin (colVals tbl s)).getD 0
    let M := (colMax (colVals tbl s)).getD 0
    (survivingDates tbl).filterMap
      (fun d => (s.lookup d).map (fun v => (d, scaleValue v m M))))

/-- Series `A` of the constant-column scenario: values 1, 2, 3 on the three
common dates 1, 2, 3. -/
def seriesA : Series := [(1, 1), (2, 2), (3, 3)]

/-- Series `B` of the constant-column scenario: the constant value 10 on the
same three dates. -/
def seriesB : Series := [(1, 10), (2, 10), (3, 10)]

/-- The scenario table of C7: three `AAPL` rows with sentiments
`0.2`, `-0.2` and `0.0`. -/
def c7Records : List HeadlineRow :=
  [⟨"AAPL", "h1", some (2/10)⟩, ⟨"AAPL", "h2", some (-(2/10))⟩,
   ⟨"AAPL", "h3", some 0⟩]

/-! ## Helper lemmas -/

instance : Std.Antisymm (fun x1 x2 : ℚ => x1 ≤ x2) :=
  ⟨fun h h' => le_antisymm h h'⟩

lemma colMin_spec {l : List ℚ} {m : ℚ} (h : colMin l = some m) :
    m ∈ l ∧ ∀ b ∈ l, m ≤ b :=
  (List.min?_eq_some_iff (fun a => le_refl a) (fun a b => min_choice a b)
    (fun _ _ _ => le_min_iff)).mp h

lemma colMax_spec {l : List ℚ} {M : ℚ} (h : colMax l = some M) :
    M ∈ l ∧ ∀ b ∈ l, b ≤ M :=
  (List.max?_eq_some_iff (fun a => le_refl a) (fun a b => max_choice a b)
    (fun _ _ _ => max_le_iff)).mp h

/-! ## Claim theorems -/

/-- C4: `categorize` is a total pure function of the score: every rational
score falls in exactly one of the three categories, with `> 0.1` giving
Positive, `< -0.1` giving Negative, and everything else Neutral; the
thresholds are exclusive, so `categorize 0.1 = Neutral` and
`categorize (-0.1) = Neutral`. -/
theorem C4_categorize_total_thresholds :
    (∀ p : ℚ,
      (categorize p = Category.positive ↔ p > 1/10) ∧
      (categorize p = Category.negative ↔ p < -(1/10)) ∧
      (categorize p = Category.neutral ↔ -(1/10) ≤ p ∧ p ≤ 1/10)) ∧
    categorize (1/10) = Category.neutral ∧
    categorize (-(1/10)) = Category.neutral := by
  refine ⟨fun p => ?_, by norm_num [categorize], by norm_num [categorize]⟩
  unfold categorize
  split_ifs with h1 h2
  · refine ⟨iff_of_true rfl h1, ?_, ?_⟩
    · simp only [reduceCtorEq, false_iff]
      intro h; linarith
    · simp only [reduceCtorEq, false_iff]
      intro h; linarith [h.2]
  · refine ⟨?_, iff_of_true rfl h2, ?_⟩
    · simp only [reduceCtorEq, false_iff]
      exact h1
    · simp only [reduceCtorEq, false_iff]
      intro h; linarith [h.1]
  · refine ⟨?_, ?_, iff_of_true rfl ⟨le_of_not_lt h2, le_of_not_lt h1⟩⟩
    · simp only [reduceCtorEq, false_iff]
      exact h1
    · simp only [reduceCtorEq, false_iff]
      exact h2

/-- C9: for every ticker and every polarity classifier, a news-provider
error is recovered locally: `fetch_real_news` returns an empty row list
together with a reported warning (it returns normally rather than
propagating the failure — it is a total function into `NewsTable`), and an
empty provider response yields an empty row list with no warning rather
than an error. -/
theorem C9_provider_error_recovered (polarity : String → ℚ) (t : String) :
    (∀ e : String,
      (fetch_real_news polarity t (Except.error e)).rows = [] ∧
      (fetch_real_news polarity t (Except.error e)).warnings ≠ []) ∧
    (fetch_real_news polarity t (Except.ok [])).rows = [] ∧
    (fetch_real_news polarity t (Except.ok [])).warnings = [] := by
  refine ⟨fun e => ⟨rfl, ?_⟩, rfl, rfl⟩
  simp [fetch_real_news]

/-- C10: for every ticker and every successful provider response,
`fetch_real_news` returns at most 5 headline rows (the query requests
`page_size=5`, and the provider returns at most that many articles), and the
returned frame has exactly the columns `Ticker, Headline, Sentiment` in both
the success and the error branch. -/
theorem C10_page_size_and_columns (polarity : String → ℚ) (t : String) :
    (∀ available : List String,
      (fetchRealNewsFromProvider polarity t available).rows.length ≤ 5) ∧
    (∀ resp : Except String (List String),
      (fetch_real_news polarity t resp).cols = ["Ticker", "Headline", "Sentiment"]) := by
  constructor
  · intro available
    simp only [fetchRealNewsFromProvider, fetch_real_news, newsProviderSearch,
      List.length_map, List.length_take]
    exact min_le_left 5 available.length
  · intro resp
    cases resp <;> rfl

/-- C8: the script performs no date-range validation: with one selected
stock and an end date strictly before the start date, the main ingestion
loop still issues its provider calls (the price download is passed the
invalid range), so the operation is not rejected before any provider call
is made. -/
theorem C8_no_date_range_rejection :
    (Config.mk ["AAPL"] 1 0).endDate < (Config.mk ["AAPL"] 1 0).startDate ∧
    mainFlowProviderCalls (Config.mk ["AAPL"] 1 0) =
      [ProviderCall.price "AAPL" 1 0, ProviderCall.news "AAPL"] :=
  ⟨by norm_num, rfl⟩

/-- C3: the rows `fetch_real_news` produces (and appends to `stock_news`)
carry no calendar date: in both branches the frame's columns are exactly
`Ticker, Headline, Sentiment`, and no `Date` column is present — evaluated
here at the concrete ticker `AAPL` with a successful one-article response
and with a failed response. -/
theorem C3_headline_rows_carry_no_date :
    (fetch_real_news (fun _ => 0) "AAPL" (Except.ok ["Apple rises"])).cols =
      ["Ticker", "Headline", "Sentiment"] ∧
    "Date" ∉ (fetch_real_news (fun _ => 0) "AAPL" (Except.ok ["Apple rises"])).cols ∧
    "Date" ∉ (fetch_real_news (fun _ => 0) "AAPL" (Except.error "boom")).cols := by
  refine ⟨rfl, ?_, ?_⟩ <;> simp [fetch_real_news]

/-- C5: `avg_sentiment` is invariant under permutation of its input rows:
permuting the table changes neither which tickers are mapped nor the mean
computed for any ticker. -/
theorem C5_avg_sentiment_perm_invariant (l l' : List HeadlineRow)
    (h : l.Perm l') (t : String) :
    avg_sentiment l t = avg_sentiment l' t := by
  have hf : (l.filter (fun r => r.ticker = t)).Perm
      (l'.filter (fun r => r.ticker = t)) := h.filter _
  have hg : (groupSentiments l t).Perm (groupSentiments l' t) := by
    unfold groupSentiments
    exact hf.filterMap _
  have hfe : (l.filter (fun r => r.ticker = t) = []) ↔
      (l'.filter (fun r => r.ticker = t) = []) := by
    rw [← List.length_eq_zero, ← List.length_eq_zero, hf.length_eq]
  have hge : (groupSentiments l t = []) ↔ (groupSentiments l' t = []) := by
    rw [← List.length_eq_zero, ← List.length_eq_zero, hg.length_eq]
  simp only [avg_sentiment]
  by_cases hc : l.filter (fun r => r.ticker = t) = []
  · rw [if_pos hc, if_pos (hfe.mp hc)]
  · rw [if_neg hc, if_neg (fun hc' => hc (hfe.mpr hc'))]
    by_cases hv : groupSentiments l t = []
    · rw [if_pos hv, if_pos (hge.mp hv)]
    · rw [if_neg hv, if_neg (fun hv' => hv (hge.mpr hv')), hg.sum_eq, hg.length_eq]

/-- C5 witness: the two-row table read in either order yields the same
average for `AAPL`. -/
theorem C5_witness :
    avg_sentiment [⟨"AAPL", "h1", some 1⟩, ⟨"AAPL", "h2", some 0⟩] "AAPL" =
      avg_sentiment [⟨"AAPL", "h2", some 0⟩, ⟨"AAPL", "h1", some 1⟩] "AAPL" :=
  C5_avg_sentiment_perm_invariant _ _ (List.Perm.swap _ _ _) "AAPL"

/-- C6: a ticker with zero rows in the table is omitted from the
`avg_sentiment` result entirely: it is not a group key and its value is
absent (not `some 0`). -/
theorem C6_empty_ticker_omitted (rows : List HeadlineRow) (t : String)
    (h : ∀ r ∈ rows, r.ticker ≠ t) :
    avg_sentiment rows t = none ∧ t ∉ avgSentimentKeys rows := by
  have hf : rows.filter (fun r => r.ticker = t) = [] :=
    List.filter_eq_nil_iff.mpr (fun r hr => by simpa using h r hr)
  constructor
  · simp only [avg_sentiment]
    rw [if_pos hf]
  · unfold avgSentimentKeys
    intro hmem
    rw [List.mem_dedup] at hmem
    obtain ⟨r, hr, hrt⟩ := List.mem_map.mp hmem
    exact h r hr hrt

/-- C6 witness: a table holding only an `AAPL` row omits `MSFT`. -/
theorem C6_witness :
    avg_sentiment [⟨"AAPL", "h1", some 0⟩] "MSFT" = none ∧
      "MSFT" ∉ avgSentimentKeys [⟨"AAPL", "h1", some 0⟩] :=
  C6_empty_ticker_omitted _ "MSFT" (by simp)

/-- C7: `pie_data` counts only rows with non-null sentiment (a null-sentiment
row changes no count), and on the scenario table the `AAPL` average is `0`
and the distribution is one Positive, one Negative, one Neutral. -/
theorem C7_distribution_scenario :
    (∀ (rows : List HeadlineRow) (tk hl : String) (c : Category),
      pie_data (HeadlineRow.mk tk hl none :: rows) c = pie_data rows c) ∧
    avg_sentiment c7Records "AAPL" = some 0 ∧
    pie_data c7Records Category.positive = 1 ∧
    pie_data c7Records Category.negative = 1 ∧
    pie_data c7Records Category.neutral = 1 := by
  refine ⟨fun rows tk hl c => by simp [pie_data], ?_, ?_, ?_, ?_⟩
  · simp [avg_sentiment, groupSentiments, c7Records]
  · norm_num [pie_data, c7Records, categorize, List.filter]
    rfl
  · norm_num [pie_data, c7Records, categorize, List.filter]
    rfl
  · norm_num [pie_data, c7Records, categorize, List.filter]
    rfl

/-- C1: the normalizer keeps only the dates present in every series (every
surviving date has a value in every column), and for any series of the
table, any surviving date, and the column's min `m` and max `M` over the
surviving dates with `m ≠ M`, the value `v` at that date is scaled to
`(v - m) / (M - m)`, which lies in `[0, 1]`, equals `0` exactly when
`v = m` would be forced to `0`, equals `1` when `v = M`, and appears as the
entry for that date in the corresponding column of `normalized_df`. -/
theorem C1_normalized_df_bounds (tbl : List Series) (s : Series) (hs : s ∈ tbl)
    (d : ℤ) (hd : d ∈ survivingDates tbl) (v m M : ℚ)
    (hv : s.lookup d = some v)
    (hm : colMin (colVals tbl s) = some m)
    (hM : colMax (colVals tbl s) = some M)
    (hne : m ≠ M) :
    (∀ d' ∈ survivingDates tbl, ∀ s' ∈ tbl, (s'.lookup d').isSome = true) ∧
    ∃ w, scaleValue v m M = some w ∧
      w = (v - m) / (M - m) ∧
      0 ≤ w ∧ w ≤ 1 ∧
      (v = m → w = 0) ∧ (v = M → w = 1) ∧
      ∃ col ∈ normalized_df tbl, (d, some w) ∈ col := by
  have hjoin : ∀ d' ∈ survivingDates tbl, ∀ s' ∈ tbl, (s'.lookup d').isSome = true := by
    intro d' hd' s' hs'
    have hall := (List.mem_filter.mp hd').2
    simpa using (List.all_eq_true.mp hall) s' hs'
  have hvmem : v ∈ colVals tbl s := List.mem_filterMap.mpr ⟨d, hd, hv⟩
  obtain ⟨hmmem, hmle⟩ := colMin_spec hm
  obtain ⟨hMmem, hMge⟩ := colMax_spec hM
  have hmv : m ≤ v := hmle v hvmem
  have hvM : v ≤ M := hMge v hvmem
  have hmM : m < M := lt_of_le_of_ne (le_trans hmv hvM) hne
  have hMm : M - m ≠ 0 := sub_ne_zero.mpr (ne_of_gt hmM)
  have hscale : scaleValue v m M = some ((v - m) / (M - m)) := by
    unfold scaleValue
    exact if_neg hMm
  refine ⟨hjoin, (v - m) / (M - m), hscale, rfl, ?_, ?_, ?_, ?_, ?_⟩
  · exact div_nonneg (sub_nonneg.mpr hmv) (le_of_lt (sub_pos.mpr hmM))
  · exact (div_le_one (sub_pos.mpr hmM)).mpr (sub_le_sub_right hvM m)
  · intro hvm
    rw [hvm, sub_self, zero_div]
  · intro hvM'
    rw [hvM']
    exact div_self hMm
  · unfold normalized_df
    refine ⟨_, List.mem_map_of_mem _ hs, List.mem_filterMap.mpr ⟨d, hd, ?_⟩⟩
    rw [hv, Option.map_some', hm, hM, Option.getD_some, Option.getD_some, hscale]

/-- C1 witness: on the two-series table `[seriesA, seriesB]`, series A at
date 2 (value 2, column min 1, column max 3) scales to `1/2` and all the
stated bounds hold. -/
theorem C1_witness :
    (∀ d' ∈ survivingDates [seriesA, seriesB], ∀ s' ∈ [seriesA, seriesB],
      (s'.lookup d').isSome = true) ∧
    ∃ w, scaleValue 2 1 3 = some w ∧
      w = (2 - 1) / (3 - 1) ∧
      0 ≤ w ∧ w ≤ 1 ∧
      ((2:ℚ) = 1 → w = 0) ∧ ((2:ℚ) = 3 → w = 1) ∧
      ∃ col ∈ normalized_df [seriesA, seriesB], ((2:ℤ), some w) ∈ col :=
  C1_normalized_df_bounds [seriesA, seriesB] seriesA (List.mem_cons_self _ _)
    2 (by decide) 2 1 3 (by decide) (by decide) (by decide) (by norm_num)

/-- C2: the code has no constant-column policy.  On the scenario table
(series A = 1, 2, 3 and the constant series B = 10, 10, 10 over three
common dates) `normalized_df` scales column A to `0, 1/2, 1`, but every row
of the constant column B evaluates `(10 - 10) / (10 - 10) = 0/0`, the
undefined float value NaN (modelled `none`) — not a defined constant such
as `0.5`. -/
theorem C2_constant_column_undefined :
    normalized_df [seriesA, seriesB] =
      [[((1:ℤ), some (0:ℚ)), (2, some (1/2)), (3, some 1)],
       [(1, none), (2, none), (3, none)]] := by
  have hdates : survivingDates [seriesA, seriesB] = [1, 2, 3] := by decide
  have hminA : colMin (colVals [seriesA, seriesB] seriesA) = some 1 := by decide
  have hmaxA : colMax (colVals [seriesA, seriesB] seriesA) = some 3 := by decide
  have hminB : colMin (colVals [seriesA, seriesB] seriesB) = some 10 := by decide
  have hmaxB : colMax (colVals [seriesA, seriesB] seriesB) = some 10 := by decide
  have la1 : seriesA.lookup 1 = some 1 := by decide
  have la2 : seriesA.lookup 2 = some 2 := by decide
  have la3 : seriesA.lookup 3 = some 3 := by decide
  have lb1 : seriesB.lookup 1 = some 10 := by decide
  have lb2 : seriesB.lookup 2 = some 10 := by decide
  have lb3 : seriesB.lookup 3 = some 10 := by decide
  have s0 : scaleValue 1 1 3 = some 0 := by norm_num [scaleValue]
  have sh : scaleValue 2 1 3 = some (1/2) := by norm_num [scaleValue]
  have s1 : scaleValue 3 1 3 = some 1 := by norm_num [scaleValue]
  have sB : scaleValue 10 10 10 = none := by norm_num [scaleValue]
  unfold normalized_df
  simp only [List.map_cons, List.map_nil, hminA, hmaxA, hminB, hmaxB, hdates,
    Option.getD_some, List.filterMap_cons, List.filterMap_nil,
    la1, la2, la3, lb1, lb2, lb3, Option.map_some', s0, sh, s1, sB]

end MarketSentiment
